import Mathlib

/-!
Verification of the SQLite practice script (src/main/sqlite.py) against its
specification.  The script drives a single `users` table in an embedded
file-backed database through a connection object.  We embed the engine state
shallowly: a database file is the committed table; a session (connection)
carries the committed state on disk together with the current in-transaction
view; commit, rollback and close move state between the two, exactly as the
sqlite3 driver does for the operations the script performs.
-/

/-- Modelled from the spec: the USER record class is imported from
src/main/user.py, which is absent from the sources.  Per the data model a
user record carries a name, a phone, an email and an opaque password, all
strings. -/
structure USER where
  name : String
  phone : String
  email : String
  password : String
deriving DecidableEq, Repr

/-- A stored row of the `users` table: the auto-assigned integer primary key
plus the four user fields (CREATE TABLE users(id INTEGER PRIMARY KEY, name
TEXT, phone TEXT, email TEXT unique, password TEXT)). -/
structure Row where
  id : Nat
  name : String
  phone : String
  email : String
  password : String
deriving DecidableEq, Repr

/-- The failure kinds the script can meet: `constraintViolation` is
sqlite3.IntegrityError (unique-key conflict on email), `queryError` a
malformed statement or missing table, `genericFailure` anything else. -/
inductive DBError where
  | constraintViolation
  | queryError
  | genericFailure
deriving DecidableEq, Repr

/-- The persisted database file: whether the `users` table exists, and its
rows in insertion order. -/
structure DBFile where
  hasUsers : Bool
  rows : List Row
deriving DecidableEq, Repr

/-- A database file that was just created: no `users` table. -/
def emptyFile : DBFile := ⟨false, []⟩

/-- A live connection: the committed state on disk and the connection's
current (possibly uncommitted) view of the database. -/
structure Session where
  disk : DBFile
  cur : DBFile
deriving DecidableEq, Repr

/-- sqlite3.connect: open the file; the connection starts with no pending
changes, so its view agrees with the disk. -/
def openDB (f : DBFile) : Session := ⟨f, f⟩

/-- db.commit(): persist all changes since the last commit/rollback. -/
def Session.commit (s : Session) : Session := ⟨s.cur, s.cur⟩

/-- db.rollback(): discard all changes since the last commit. -/
def Session.rollback (s : Session) : Session := ⟨s.disk, s.disk⟩

/-- db.close(): release the connection; uncommitted changes are lost and the
committed file remains. -/
def Session.close (s : Session) : DBFile := s.disk

/-- DROP TABLE IF EXISTS users. -/
def DBFile.dropTable (_f : DBFile) : DBFile := ⟨false, []⟩

/-- CREATE TABLE IF NOT EXISTS users(...): create the table when absent,
leave the file untouched when it is already there. -/
def DBFile.createTableIfNotExists (f : DBFile) : DBFile :=
  if f.hasUsers then f else ⟨true, []⟩

/-- ensureSchema(): run CREATE TABLE IF NOT EXISTS on the session's current
view. -/
def ensureSchema (s : Session) : Session :=
  ⟨s.disk, s.cur.createTableIfNotExists⟩

/-- Does some row of the table already carry email `e`?  (The engine's check
behind the `unique` constraint on the email column.) -/
def emailExists (t : List Row) (e : String) : Bool :=
  t.any (fun r => r.email == e)

/-- The largest primary key present in the table (0 when empty). -/
def maxId : List Row → Nat
  | [] => 0
  | r :: t => max r.id (maxId t)

/-- The id the engine auto-assigns to the next inserted row: one more than
the largest id in use. -/
def nextId (t : List Row) : Nat := maxId t + 1

/-- INSERT INTO users(name, phone, email, password) VALUES (?,?,?,?) on the
bare table: rejected with an IntegrityError when the email is already
present, otherwise the row is appended with the auto-assigned id. -/
def insertRow (t : List Row) (u : USER) : Except DBError (List Row) :=
  if emailExists t u.email then .error .constraintViolation
  else .ok (t ++ [⟨nextId t, u.name, u.phone, u.email, u.password⟩])

/-- insertUser on a session: the INSERT runs against the connection's
current view; a failed statement leaves the session exactly as it was. -/
def insertUser (s : Session) (u : USER) : Except DBError Nat × Session :=
  if s.cur.hasUsers then
    match insertRow s.cur.rows u with
    | .error e => (.error e, s)
    | .ok t2 => (.ok (nextId s.cur.rows), ⟨s.disk, ⟨true, t2⟩⟩)
  else (.error .queryError, s)

/-- cur.executemany(INSERT ...): run the INSERT once per record, stopping at
the first failure; records inserted before the failure stay in the
(uncommitted) view. -/
def insertManyRows (t : List Row) : List USER → List Row × Option DBError
  | [] => (t, none)
  | u :: us =>
    match insertRow t u with
    | .error e => (t, some e)
    | .ok t2 => insertManyRows t2 us

/-- insertMany on a session: executemany against the current view. -/
def insertMany (s : Session) (us : List USER) : Session × Option DBError :=
  if s.cur.hasUsers then
    match insertManyRows s.cur.rows us with
    | (t2, e) => (⟨s.disk, ⟨true, t2⟩⟩, e)
  else (s, some .queryError)

/-- Modelled from the spec: fetchOne with a `WHERE email = ?` condition; the
source only issues `SELECT ... WHERE id = ?`, the by-email fetch appears in
the spec's test scenario.  Returns the first matching row, none otherwise. -/
def fetchOneByEmail (t : List Row) (e : String) : Option Row :=
  (t.filter (fun r => r.email == e)).head?

/-- SELECT ... FROM users WHERE id=? followed by fetchone(). -/
def fetchOneById (t : List Row) (i : Nat) : Option Row :=
  (t.filter (fun r => r.id == i)).head?

/-- UPDATE users SET phone = ? WHERE id = ?. -/
def updatePhoneById (t : List Row) (phone : String) (i : Nat) : List Row :=
  t.map (fun r => if r.id == i then { r with phone := phone } else r)

/-- DELETE FROM users WHERE id = ?. -/
def deleteById (t : List Row) (i : Nat) : List Row :=
  t.filter (fun r => !(r.id == i))

/-- An uncommitted statement acting on the rows of the session's current
view (the table is required to exist for it to do anything). -/
def Session.mapRows (s : Session) (g : List Row → List Row) : Session :=
  if s.cur.hasUsers then ⟨s.disk, ⟨true, g s.cur.rows⟩⟩ else s

/-- Claim C4: after commit(), changes persist across close() followed by a
fresh open() of the same file: the reopened session's view is exactly the
committed view, so every query on it observes the committed changes. -/
theorem commit_close_open_persists (s : Session) :
    openDB (s.commit.close) = Session.mk s.cur s.cur ∧
    (∀ e, fetchOneByEmail (openDB (s.commit.close)).cur.rows e
        = fetchOneByEmail s.cur.rows e) ∧
    (∀ i, fetchOneById (openDB (s.commit.close)).cur.rows i
        = fetchOneById s.cur.rows i) ∧
    (openDB (s.commit.close)).cur.rows = s.cur.rows :=
  ⟨rfl, fun _ => rfl, fun _ => rfl, rfl⟩

/-- The record inserted in the spec's end-to-end scenario. -/
def halim : USER := ⟨"Halim", "01234567890", "halim@email.com", "ha1234"⟩

/-- The spec's scenario run on a fresh file: open, ensureSchema, insert
Halim, commit, then fetch by email. -/
def halimScenario : Option Row :=
  let s := ensureSchema (openDB emptyFile)
  let s := ((insertUser s halim).2).commit
  fetchOneByEmail s.cur.rows "halim@email.com"

/-- Claim C5: the scenario open fresh file, ensureSchema, insertUser(Halim),
commit, fetchOne(email = halim@email.com) returns exactly the inserted
record, all four fields equal to the inserted values. -/
theorem halimScenario_returns_inserted :
    halimScenario = some ⟨1, "Halim", "01234567890", "halim@email.com", "ha1234"⟩ := by
  decide

/-- The opening lines of every run of the script: connect to the database
file, DROP TABLE IF EXISTS users, CREATE TABLE IF NOT EXISTS users, then
commit. -/
def scriptPrologue (f : DBFile) : Session :=
  let s := openDB f
  let s := Session.mk s.disk s.cur.dropTable
  let s := Session.mk s.disk s.cur.createTableIfNotExists
  s.commit

/-- Claim C9: every run of the script drops the users table before
recreating it, so whatever the prior state of the file, after the prologue
(and before any other operation of the run) the table exists and is empty,
on disk and in the connection's view alike: all rows committed by earlier
runs are destroyed. -/
theorem scriptPrologue_wipes (f : DBFile) :
    scriptPrologue f = Session.mk ⟨true, []⟩ ⟨true, []⟩ ∧
    (scriptPrologue f).cur.rows = [] ∧
    (scriptPrologue f).disk.rows = [] ∧
    scriptPrologue f = scriptPrologue emptyFile :=
  ⟨rfl, rfl, rfl, rfl⟩

/-- Outcome of running a connection-scoped block to its end: the persisted
file after the connection is closed, the failure that escaped the block (if
any), and whether the connection was released. -/
structure RunOutcome where
  file : DBFile
  raised : Option DBError
  released : Bool
deriving DecidableEq, Repr

/-- The source's `with db: ... finally: db.close()` pattern: open the file,
run a caller-supplied unit of work returning its final session state and the
failure it raised (if any); on normal completion commit, on failure roll
back, and in either case close the connection. -/
def scopedTransaction (f : DBFile) (work : Session → Session × Option DBError) :
    RunOutcome :=
  let s := openDB f
  match work s with
  | (s2, none) => ⟨s2.commit.close, none, true⟩
  | (s2, some e) => ⟨s2.rollback.close, some e, true⟩

/-- Claim C2: the scoped transaction block commits the unit of work's
changes on normal completion, rolls every change back on failure (when the
work manages no transaction of its own, the file is exactly as before), and
releases the connection on every exit path. -/
theorem scopedTransaction_spec (f : DBFile)
    (work : Session → Session × Option DBError) :
    ((work (openDB f)).2 = none →
      (scopedTransaction f work).file = (work (openDB f)).1.cur ∧
      (scopedTransaction f work).raised = none) ∧
    (∀ e, (work (openDB f)).2 = some e → (work (openDB f)).1.disk = f →
      (scopedTransaction f work).file = f ∧
      (scopedTransaction f work).raised = some e) ∧
    (scopedTransaction f work).released = true := by
  rcases hw : work (openDB f) with ⟨s2, err⟩
  cases err with
  | none =>
    refine ⟨fun _ => ⟨?_, ?_⟩, fun e he hd => absurd he (by simp), ?_⟩ <;>
      simp [scopedTransaction, hw, Session.commit, Session.close]
  | some e0 =>
    refine ⟨fun hn => absurd hn (by simp), fun e he hd => ?_, ?_⟩
    · have he2 : e0 = e := by simpa using he
      subst he2
      have hd2 : s2.disk = f := hd
      constructor
      · simp [scopedTransaction, hw, Session.rollback, Session.close, hd2]
      · simp [scopedTransaction, hw]
    · simp [scopedTransaction, hw]

/-- A concrete unit of work for the C2 witness: insert Halim and complete
normally. -/
def demoWork (s : Session) : Session × Option DBError :=
  ((insertUser s halim).2, none)

/-- Witness for C2 at a concrete input: the unit of work that inserts Halim
into a file holding the empty table completes normally, so its change is
committed and no failure escapes. -/
theorem scopedTransaction_spec_witness :
    (demoWork (openDB ⟨true, []⟩)).2 = none ∧
    ((scopedTransaction ⟨true, []⟩ demoWork).file
        = (demoWork (openDB ⟨true, []⟩)).1.cur ∧
      (scopedTransaction ⟨true, []⟩ demoWork).raised = none) :=
  ⟨rfl, (scopedTransaction_spec ⟨true, []⟩ demoWork).1 rfl⟩

/-- Claim C1: inserting a second user whose email already belongs to a row
of the table fails with the constraint-violation error and leaves the
session, hence the table, unchanged: same row count, every existing row
still present. -/
theorem insertUser_duplicate_email (s : Session) (u : USER) (r : Row)
    (hts : s.cur.hasUsers = true) (hr : r ∈ s.cur.rows) (he : r.email = u.email) :
    (insertUser s u).1 = .error .constraintViolation ∧
    (insertUser s u).2 = s ∧
    (insertUser s u).2.cur.rows.length = s.cur.rows.length ∧
    ∀ x ∈ s.cur.rows, x ∈ (insertUser s u).2.cur.rows := by
  have hdup : emailExists s.cur.rows u.email = true := by
    simp only [emailExists, List.any_eq_true, beq_iff_eq]
    exact ⟨r, hr, he⟩
  have hres : insertUser s u = (.error .constraintViolation, s) := by
    unfold insertUser insertRow
    rw [hts, hdup]
    simp
  rw [hres]
  exact ⟨rfl, rfl, rfl, fun x hx => hx⟩

/-- A one-row table used by several witnesses. -/
def demoRow : Row := ⟨1, "Halim", "01234567890", "halim@email.com", "ha1234"⟩

/-- Witness for C1 at a concrete input: re-inserting Halim's email into a
table that already holds Halim's row is rejected and changes nothing. -/
theorem insertUser_duplicate_email_witness :
    ((Session.mk ⟨true, [demoRow]⟩ ⟨true, [demoRow]⟩).cur.hasUsers = true ∧
      demoRow ∈ (Session.mk ⟨true, [demoRow]⟩ ⟨true, [demoRow]⟩).cur.rows ∧
      demoRow.email = halim.email) ∧
    ((insertUser (Session.mk ⟨true, [demoRow]⟩ ⟨true, [demoRow]⟩) halim).1
        = .error .constraintViolation ∧
      (insertUser (Session.mk ⟨true, [demoRow]⟩ ⟨true, [demoRow]⟩) halim).2
        = Session.mk ⟨true, [demoRow]⟩ ⟨true, [demoRow]⟩ ∧
      (insertUser (Session.mk ⟨true, [demoRow]⟩ ⟨true, [demoRow]⟩) halim).2.cur.rows.length
        = (Session.mk ⟨true, [demoRow]⟩ ⟨true, [demoRow]⟩).cur.rows.length ∧
      ∀ x ∈ (Session.mk ⟨true, [demoRow]⟩ ⟨true, [demoRow]⟩).cur.rows,
        x ∈ (insertUser (Session.mk ⟨true, [demoRow]⟩ ⟨true, [demoRow]⟩) halim).2.cur.rows) :=
  ⟨⟨rfl, by decide, rfl⟩,
    insertUser_duplicate_email _ halim demoRow rfl (by decide) rfl⟩

/-- Claim C3: on a session with no pending changes, an uncommitted UPDATE
followed by rollback() is the identity on the observable state: the session
is restored and a subsequent fetchOne returns the pre-update record. -/
theorem update_rollback_identity (s : Session) (phone : String) (i : Nat)
    (hclean : s.cur = s.disk) :
    ((s.mapRows (fun t => updatePhoneById t phone i)).rollback = s) ∧
    (fetchOneById ((s.mapRows (fun t => updatePhoneById t phone i)).rollback).cur.rows i
      = fetchOneById s.cur.rows i) := by
  have h1 : (s.mapRows (fun t => updatePhoneById t phone i)).rollback = s := by
    rcases s with ⟨d, c⟩
    simp only at hclean
    subst hclean
    unfold Session.mapRows Session.rollback
    by_cases hc : c.hasUsers <;> simp [hc]
  exact ⟨h1, by rw [h1]⟩

/-- Witness for C3 at a concrete input: update Halim's phone in a committed
one-row database, then roll back; the fetch sees the old phone. -/
theorem update_rollback_identity_witness :
    (Session.mk ⟨true, [demoRow]⟩ ⟨true, [demoRow]⟩).cur
      = (Session.mk ⟨true, [demoRow]⟩ ⟨true, [demoRow]⟩).disk ∧
    (((Session.mk ⟨true, [demoRow]⟩ ⟨true, [demoRow]⟩).mapRows
        (fun t => updatePhoneById t "000" 1)).rollback
      = Session.mk ⟨true, [demoRow]⟩ ⟨true, [demoRow]⟩ ∧
      fetchOneById (((Session.mk ⟨true, [demoRow]⟩ ⟨true, [demoRow]⟩).mapRows
          (fun t => updatePhoneById t "000" 1)).rollback).cur.rows 1
        = fetchOneById (Session.mk ⟨true, [demoRow]⟩ ⟨true, [demoRow]⟩).cur.rows 1) :=
  ⟨rfl, update_rollback_identity _ "000" 1 rfl⟩

/-- Claim C7: CREATE TABLE IF NOT EXISTS creates the users table when it is
absent and is idempotent: on a file where the table already exists it
changes neither schema nor rows, and running ensureSchema twice equals
running it once. -/
theorem ensureSchema_idempotent (s : Session) :
    (s.cur.hasUsers = false → (ensureSchema s).cur = ⟨true, []⟩) ∧
    (s.cur.hasUsers = true → ensureSchema s = s) ∧
    ensureSchema (ensureSchema s) = ensureSchema s ∧
    (ensureSchema s).cur.hasUsers = true := by
  rcases s with ⟨d, c⟩
  unfold ensureSchema DBFile.createTableIfNotExists
  by_cases hc : c.hasUsers <;> simp [hc]

/-- Witness for C7 at a concrete input: a fresh file gains the empty table,
and on a session already holding the table nothing changes. -/
theorem ensureSchema_idempotent_witness :
    (openDB emptyFile).cur.hasUsers = false ∧
    (ensureSchema (openDB emptyFile)).cur = DBFile.mk true [] :=
  ⟨rfl, (ensureSchema_idempotent (openDB emptyFile)).1 rfl⟩

/-- Outcome of the source's guarded context-manager block
(`try: with db: ... except sqlite3.IntegrityError: print ... finally:
db.close()`): the persisted file, the failure that escaped, whether the
duplicate-data message was reported to the user, and whether the connection
was released. -/
structure GuardedOutcome where
  file : DBFile
  raised : Option DBError
  reported : Bool
  released : Bool
deriving DecidableEq, Repr

/-- The guarded block: open the file and run the unit of work inside
`with db:`; a normal completion is committed; a failure rolls the
transaction back, and then an IntegrityError is caught and reported while
any other failure is re-raised to the caller; the connection is closed on
every path. -/
def guardedTransaction (f : DBFile) (work : Session → Session × Option DBError) :
    GuardedOutcome :=
  let s := openDB f
  match work s with
  | (s2, none) => ⟨s2.commit.close, none, false, true⟩
  | (s2, some DBError.constraintViolation) => ⟨s2.rollback.close, none, true, true⟩
  | (s2, some e) => ⟨s2.rollback.close, some e, false, true⟩

/-- Claim C8: in the guarded block a constraint violation is caught at the
call site and reported, no failure escapes (the run continues) and the
transaction is rolled back to the last committed state; every other failure
rolls the transaction back and is then re-raised to the caller; the
connection is released in all cases. -/
theorem guardedTransaction_policy (f : DBFile)
    (work : Session → Session × Option DBError) :
    (∀ s2, work (openDB f) = (s2, some DBError.constraintViolation) →
      (guardedTransaction f work).raised = none ∧
      (guardedTransaction f work).reported = true ∧
      (guardedTransaction f work).file = s2.disk) ∧
    (∀ s2 e, work (openDB f) = (s2, some e) → e ≠ DBError.constraintViolation →
      (guardedTransaction f work).raised = some e ∧
      (guardedTransaction f work).reported = false ∧
      (guardedTransaction f work).file = s2.disk) ∧
    (guardedTransaction f work).released = true := by
  refine ⟨fun s2 hw => ?_, fun s2 e hw hne => ?_, ?_⟩
  · refine ⟨?_, ?_, ?_⟩ <;>
      simp [guardedTransaction, hw, Session.rollback, Session.close]
  · cases e with
    | constraintViolation => exact absurd rfl hne
    | queryError =>
      refine ⟨?_, ?_, ?_⟩ <;>
        simp [guardedTransaction, hw, Session.rollback, Session.close]
    | genericFailure =>
      refine ⟨?_, ?_, ?_⟩ <;>
        simp [guardedTransaction, hw, Session.rollback, Session.close]
  · rcases hw : work (openDB f) with ⟨s2, err⟩
    cases err with
    | none => simp [guardedTransaction, hw]
    | some e => cases e <;> simp [guardedTransaction, hw]

/-- A concrete unit of work for the C8 witness: try to insert Halim's email
a second time and surface the engine's failure. -/
def demoDupWork (s : Session) : Session × Option DBError :=
  match insertUser s halim with
  | (.error e, s2) => (s2, some e)
  | (.ok _, s2) => (s2, none)

/-- Witness for C8 at a concrete input: inserting a duplicate email inside
the guarded block is reported, nothing escapes, and the file keeps its
committed row. -/
theorem guardedTransaction_policy_witness :
    demoDupWork (openDB ⟨true, [demoRow]⟩)
      = (openDB ⟨true, [demoRow]⟩, some DBError.constraintViolation) ∧
    ((guardedTransaction ⟨true, [demoRow]⟩ demoDupWork).raised = none ∧
      (guardedTransaction ⟨true, [demoRow]⟩ demoDupWork).reported = true ∧
      (guardedTransaction ⟨true, [demoRow]⟩ demoDupWork).file
        = (openDB ⟨true, [demoRow]⟩).disk) :=
  ⟨by decide,
    (guardedTransaction_policy ⟨true, [demoRow]⟩ demoDupWork).1
      (openDB ⟨true, [demoRow]⟩) (by decide)⟩

/-- Appending one row only raises the table's maximum id to that row's id. -/
theorem maxId_append_single (t : List Row) (r : Row) :
    maxId (t ++ [r]) = max (maxId t) r.id := by
  induction t with
  | nil => simp [maxId]
  | cons a t ih =>
    rw [List.cons_append]
    show max a.id (maxId (t ++ [r])) = max (max a.id (maxId t)) r.id
    rw [ih]
    omega

/-- The unique-email check over an extended table. -/
theorem emailExists_append_single (t : List Row) (r : Row) (e : String) :
    emailExists (t ++ [r]) e = (emailExists t e || (r.email == e)) := by
  simp [emailExists]

/-- A batch is fresh for a table when its emails are pairwise distinct and
none of them is already stored. -/
def freshBatch (us : List USER) (t : List Row) : Prop :=
  (us.map USER.email).Nodup ∧ ∀ u ∈ us, emailExists t u.email = false

/-- executemany over a fresh batch raises no error and appends one row per
record; every appended id is at least the table's next id and the appended
ids are strictly ascending in batch order. -/
theorem insertManyRows_fresh (us : List USER) :
    ∀ t : List Row, freshBatch us t →
      (insertManyRows t us).2 = none ∧
      ∃ new, (insertManyRows t us).1 = t ++ new ∧ new.length = us.length ∧
        (∀ r ∈ new, nextId t ≤ r.id) ∧
        (new.map Row.id).Pairwise (fun a b => a < b) := by
  induction us with
  | nil =>
    intro t _
    exact ⟨rfl, [], by simp [insertManyRows], by simp,
      fun r hr => absurd hr (List.not_mem_nil r), by simp⟩
  | cons u us ih =>
    rintro t ⟨hnd, hfr⟩
    have hu : emailExists t u.email = false := hfr u (List.mem_cons_self u us)
    have hins : insertRow t u
        = .ok (t ++ [⟨nextId t, u.name, u.phone, u.email, u.password⟩]) := by
      simp [insertRow, hu]
    have hstep : insertManyRows t (u :: us)
        = insertManyRows (t ++ [⟨nextId t, u.name, u.phone, u.email, u.password⟩]) us := by
      simp [insertManyRows, hins]
    have hnotin : u.email ∉ us.map USER.email := (List.nodup_cons.mp hnd).1
    have hnd2 : (us.map USER.email).Nodup := (List.nodup_cons.mp hnd).2
    have hfr2 : ∀ v ∈ us,
        emailExists (t ++ [⟨nextId t, u.name, u.phone, u.email, u.password⟩]) v.email
          = false := by
      intro v hv
      rw [emailExists_append_single]
      have h1 : emailExists t v.email = false := hfr v (List.mem_cons_of_mem _ hv)
      have h2 : (u.email == v.email) = false := by
        rw [beq_eq_false_iff_ne]
        intro hEq
        exact hnotin (hEq ▸ List.mem_map_of_mem USER.email hv)
      simp [h1, h2]
    obtain ⟨hn2, new, hnew, hlen, hge, hpair⟩ :=
      ih (t ++ [⟨nextId t, u.name, u.phone, u.email, u.password⟩]) ⟨hnd2, hfr2⟩
    have hnext : nextId (t ++ [⟨nextId t, u.name, u.phone, u.email, u.password⟩])
        = nextId t + 1 := by
      simp only [nextId, maxId_append_single]
      omega
    refine ⟨by rw [hstep]; exact hn2,
      ⟨nextId t, u.name, u.phone, u.email, u.password⟩ :: new, ?_, ?_, ?_, ?_⟩
    · rw [hstep, hnew]
      simp
    · simp [hlen]
    · intro r hr
      rcases List.mem_cons.mp hr with h | h
      · subst h
        simp
      · have h2 := hge r h
        rw [hnext] at h2
        omega
    · rw [List.map_cons, List.pairwise_cons]
      refine ⟨?_, hpair⟩
      intro b hb
      obtain ⟨r, hrmem, hrb⟩ := List.mem_map.mp hb
      have h1 := hge r hrmem
      rw [hnext] at h1
      subst hrb
      show nextId t < r.id
      omega

/-- Claim C6: a batch of 10 well-formed rows, all emails fresh, is inserted
in full: no error, exactly 10 new rows appended, and their auto-assigned
primary keys are strictly ascending in batch order. -/
theorem insertMany_ten_ascending (us : List USER) (t : List Row)
    (hlen : us.length = 10) (hfresh : freshBatch us t) :
    (insertManyRows t us).2 = none ∧
    (insertManyRows t us).1.length = t.length + 10 ∧
    ∃ new, (insertManyRows t us).1 = t ++ new ∧ new.length = 10 ∧
      (new.map Row.id).Pairwise (fun a b => a < b) := by
  obtain ⟨h1, new, h2, h3, _, h5⟩ := insertManyRows_fresh us t hfresh
  refine ⟨h1, ?_, new, h2, by rw [h3, hlen], h5⟩
  rw [h2]
  simp [h3, hlen]

/-- The concrete batch of 10 records the script builds (with fixed phone
and password stand-ins for the random values, which the emails do not
depend on). -/
def demoBatch : List USER :=
  (List.range 10).map (fun i =>
    ⟨"Name " ++ toString i, "0123456789", "name" ++ toString i ++ "@email.com", "12345"⟩)

/-- Witness for C6 at a concrete input: the script's batch of 10 users with
distinct fresh emails inserted into the empty table. -/
theorem insertMany_ten_ascending_witness :
    demoBatch.length = 10 ∧ freshBatch demoBatch [] ∧
    ((insertManyRows [] demoBatch).2 = none ∧
      (insertManyRows [] demoBatch).1.length = ([] : List Row).length + 10 ∧
      ∃ new, (insertManyRows [] demoBatch).1 = [] ++ new ∧ new.length = 10 ∧
        (new.map Row.id).Pairwise (fun a b => a < b)) :=
  ⟨by decide, ⟨by decide, by decide⟩,
    insertMany_ten_ascending demoBatch [] (by decide) ⟨by decide, by decide⟩⟩

/-- The second record the script inserts (named-parameter INSERT). -/
def alim : USER := ⟨"Alim", "01234567890", "alim@email.com", "al1234"⟩

/-- The record of the final, guarded INSERT. -/
def mobarak : USER := ⟨"Mobarak", "3366858", "imshakil@github.com", "12345"⟩

/-- The batch of 10 records the script generates: the comprehension
`("Name " + str(i), phone, "name" + str(i) + "@email.com", password) for i
in range(10)` unrolled at its concrete bound 10; `rnd i` supplies the two
random.randint strings (phone and password) of record `i`, the names and
emails are fixed by the code. -/
def genUsers (rnd : Nat → String × String) : List USER :=
  [⟨"Name 0", (rnd 0).1, "name0@email.com", (rnd 0).2⟩,
    ⟨"Name 1", (rnd 1).1, "name1@email.com", (rnd 1).2⟩,
    ⟨"Name 2", (rnd 2).1, "name2@email.com", (rnd 2).2⟩,
    ⟨"Name 3", (rnd 3).1, "name3@email.com", (rnd 3).2⟩,
    ⟨"Name 4", (rnd 4).1, "name4@email.com", (rnd 4).2⟩,
    ⟨"Name 5", (rnd 5).1, "name5@email.com", (rnd 5).2⟩,
    ⟨"Name 6", (rnd 6).1, "name6@email.com", (rnd 6).2⟩,
    ⟨"Name 7", (rnd 7).1, "name7@email.com", (rnd 7).2⟩,
    ⟨"Name 8", (rnd 8).1, "name8@email.com", (rnd 8).2⟩,
    ⟨"Name 9", (rnd 9).1, "name9@email.com", (rnd 9).2⟩]

/-- INSERT Halim, commit. -/
def scriptStage2 (s : Session) : Session := ((insertUser s halim).2).commit

/-- INSERT Alim (named parameters), commit. -/
def scriptStage3 (s : Session) : Session := ((insertUser s alim).2).commit

/-- executemany of the 10 generated records, commit. -/
def scriptStage4 (rnd : Nat → String × String) (s : Session) : Session :=
  ((insertMany s (genUsers rnd)).1).commit

/-- UPDATE phone of id 5, commit. -/
def scriptStage5 (s : Session) : Session :=
  (s.mapRows (fun t => updatePhoneById t "01710567890" 5)).commit

/-- DELETE id 8, commit. -/
def scriptStage6 (s : Session) : Session :=
  (s.mapRows (fun t => deleteById t 8)).commit

/-- UPDATE phone of id 5 again, then rollback. -/
def scriptStage7 (s : Session) : Session :=
  (s.mapRows (fun t => updatePhoneById t "01712567890" 5)).rollback

/-- The try-block reconnect: connect to the same file, CREATE TABLE IF NOT
EXISTS, commit, close. -/
def scriptStage8 (s : Session) : DBFile :=
  (((ensureSchema (openDB s.close)).commit)).close

/-- The script's run from the top down to just before the final guarded
INSERT, as the committed database file. -/
def scriptBeforeFinalInsert (f : DBFile) (rnd : Nat → String × String) : DBFile :=
  scriptStage8 (scriptStage7 (scriptStage6 (scriptStage5
    (scriptStage4 rnd (scriptStage3 (scriptStage2 (scriptPrologue f)))))))

/-- The final guarded INSERT's unit of work: insert Mobarak's record and
surface the engine's failure, if any. -/
def scriptFinalWork (s : Session) : Session × Option DBError :=
  match insertUser s mobarak with
  | (.error e, s2) => (s2, some e)
  | (.ok _, s2) => (s2, none)

/-- The outcome of the script's final guarded block. -/
def scriptFinalOutcome (f : DBFile) (rnd : Nat → String × String) : GuardedOutcome :=
  guardedTransaction (scriptBeforeFinalInsert f rnd) scriptFinalWork

/-- The first row the script inserts. -/
def rowHalim : Row := ⟨1, "Halim", "01234567890", "halim@email.com", "ha1234"⟩

/-- The second row the script inserts. -/
def rowAlim : Row := ⟨2, "Alim", "01234567890", "alim@email.com", "al1234"⟩

/-- The row the batch insert creates for generated record `i` (ids 3-12);
the name and email literals of record `i` are passed in. -/
def genRow (rnd : Nat → String × String) (i : Nat) (nm em : String) : Row :=
  ⟨3 + i, nm, (rnd i).1, em, (rnd i).2⟩

/-- Generated record 2 (primary key 5) after the committed phone UPDATE. -/
def genRow2Upd (rnd : Nat → String × String) : Row :=
  ⟨5, "Name 2", "01710567890", "name2@email.com", (rnd 2).2⟩

/-- The table after the batch insert committed. -/
def rowsAfterBatch (rnd : Nat → String × String) : List Row :=
  [rowHalim, rowAlim,
    genRow rnd 0 "Name 0" "name0@email.com", genRow rnd 1 "Name 1" "name1@email.com",
    genRow rnd 2 "Name 2" "name2@email.com", genRow rnd 3 "Name 3" "name3@email.com",
    genRow rnd 4 "Name 4" "name4@email.com", genRow rnd 5 "Name 5" "name5@email.com",
    genRow rnd 6 "Name 6" "name6@email.com", genRow rnd 7 "Name 7" "name7@email.com",
    genRow rnd 8 "Name 8" "name8@email.com", genRow rnd 9 "Name 9" "name9@email.com"]

/-- The table after the committed phone UPDATE of id 5. -/
def rowsAfterUpdate (rnd : Nat → String × String) : List Row :=
  [rowHalim, rowAlim,
    genRow rnd 0 "Name 0" "name0@email.com", genRow rnd 1 "Name 1" "name1@email.com",
    genRow2Upd rnd, genRow rnd 3 "Name 3" "name3@email.com",
    genRow rnd 4 "Name 4" "name4@email.com", genRow rnd 5 "Name 5" "name5@email.com",
    genRow rnd 6 "Name 6" "name6@email.com", genRow rnd 7 "Name 7" "name7@email.com",
    genRow rnd 8 "Name 8" "name8@email.com", genRow rnd 9 "Name 9" "name9@email.com"]

/-- The table after the DELETE of id 8, as it stands before the final
guarded INSERT. -/
def rowsFinal (rnd : Nat → String × String) : List Row :=
  [rowHalim, rowAlim,
    genRow rnd 0 "Name 0" "name0@email.com", genRow rnd 1 "Name 1" "name1@email.com",
    genRow2Upd rnd, genRow rnd 3 "Name 3" "name3@email.com",
    genRow rnd 4 "Name 4" "name4@email.com",
    genRow rnd 6 "Name 6" "name6@email.com", genRow rnd 7 "Name 7" "name7@email.com",
    genRow rnd 8 "Name 8" "name8@email.com", genRow rnd 9 "Name 9" "name9@email.com"]

/-- Claim C10: within a single run of the script the IntegrityError handler
is unreachable: whatever the prior contents of the database file and
whatever the random phone and password strings, every email inserted during
the run is distinct, so the final INSERT succeeds, nothing is reported and
no failure escapes. -/
theorem script_integrity_handler_unreachable (f : DBFile)
    (rnd : Nat → String × String) :
    (scriptFinalOutcome f rnd).reported = false ∧
    (scriptFinalOutcome f rnd).raised = none ∧
    (scriptFinalWork (openDB (scriptBeforeFinalInsert f rnd))).2 = none := by
  have h1 : scriptPrologue f
      = Session.mk (DBFile.mk true []) (DBFile.mk true []) := rfl
  have h2 : scriptStage2 (Session.mk (DBFile.mk true []) (DBFile.mk true []))
      = Session.mk (DBFile.mk true [rowHalim]) (DBFile.mk true [rowHalim]) := by
    simp [scriptStage2, insertUser, insertRow, emailExists, nextId, maxId,
      halim, rowHalim, Session.commit]
  have h3 : scriptStage3
        (Session.mk (DBFile.mk true [rowHalim]) (DBFile.mk true [rowHalim]))
      = Session.mk (DBFile.mk true [rowHalim, rowAlim])
          (DBFile.mk true [rowHalim, rowAlim]) := by
    simp [scriptStage3, insertUser, insertRow, emailExists, nextId, maxId,
      alim, rowHalim, rowAlim, Session.commit]
  have h4 : scriptStage4 rnd
        (Session.mk (DBFile.mk true [rowHalim, rowAlim])
          (DBFile.mk true [rowHalim, rowAlim]))
      = Session.mk (DBFile.mk true (rowsAfterBatch rnd))
          (DBFile.mk true (rowsAfterBatch rnd)) := by
    simp [scriptStage4, insertMany, insertManyRows, insertRow, emailExists,
      nextId, maxId, genUsers, rowsAfterBatch, genRow, rowHalim, rowAlim,
      Session.commit]
  have h5 : scriptStage5
        (Session.mk (DBFile.mk true (rowsAfterBatch rnd))
          (DBFile.mk true (rowsAfterBatch rnd)))
      = Session.mk (DBFile.mk true (rowsAfterUpdate rnd))
          (DBFile.mk true (rowsAfterUpdate rnd)) := by
    simp [scriptStage5, Session.mapRows, updatePhoneById, rowsAfterBatch,
      rowsAfterUpdate, genRow, genRow2Upd, rowHalim, rowAlim, Session.commit]
  have h6 : scriptStage6
        (Session.mk (DBFile.mk true (rowsAfterUpdate rnd))
          (DBFile.mk true (rowsAfterUpdate rnd)))
      = Session.mk (DBFile.mk true (rowsFinal rnd))
          (DBFile.mk true (rowsFinal rnd)) := by
    simp [scriptStage6, Session.mapRows, deleteById, rowsAfterUpdate,
      rowsFinal, genRow, genRow2Upd, rowHalim, rowAlim, Session.commit]
  have h7 : scriptStage7
        (Session.mk (DBFile.mk true (rowsFinal rnd))
          (DBFile.mk true (rowsFinal rnd)))
      = Session.mk (DBFile.mk true (rowsFinal rnd))
          (DBFile.mk true (rowsFinal rnd)) := by
    simp [scriptStage7, Session.mapRows, Session.rollback]
  have h8 : scriptStage8
        (Session.mk (DBFile.mk true (rowsFinal rnd))
          (DBFile.mk true (rowsFinal rnd)))
      = DBFile.mk true (rowsFinal rnd) := rfl
  have hb : scriptBeforeFinalInsert f rnd = DBFile.mk true (rowsFinal rnd) := by
    unfold scriptBeforeFinalInsert
    rw [h1, h2, h3, h4, h5, h6, h7, h8]
  have hfw : scriptFinalWork (openDB (DBFile.mk true (rowsFinal rnd)))
      = (Session.mk (DBFile.mk true (rowsFinal rnd))
          (DBFile.mk true (rowsFinal rnd ++
            [⟨13, "Mobarak", "3366858", "imshakil@github.com", "12345"⟩])), none) := by
    simp [scriptFinalWork, insertUser, insertRow, emailExists, nextId, maxId,
      mobarak, openDB, rowsFinal, genRow, genRow2Upd, rowHalim, rowAlim]
  refine ⟨?_, ?_, ?_⟩
  · simp [scriptFinalOutcome, hb, guardedTransaction, hfw]
  · simp [scriptFinalOutcome, hb, guardedTransaction, hfw]
  · rw [hb, hfw]
